import Mathlib

/-!
Verification of the amethyst sprite-encoding fragment.

Scalars of the Rust code (`f32`) are modelled as rationals `ℚ`; machine
floats introduce rounding only, which none of the verified statements
depend on.  A Rust value of type `Option<&T>` becomes `Option T`, and a
computation that may panic (an unchecked `unwrap` or slice index) returns
`Option` with `none` marking the panic.
-/

/-- A 4-scalar output value, the fixed-arity payload of every declared
property (`vec4` in the shaders, `[f32; 4]` after `.into()`). -/
abbrev Vec4 : Type := Fin 4 → ℚ

/-- Modelled from the spec: the tint source component.  `Rgba` is a
four-channel colour tuple struct from the crate root, which is not under
`src/`; the spec describes it as "four independent scalar channels
(e.g. red, green, blue, alpha) per entity". -/
structure Rgba where
  r : ℚ
  g : ℚ
  b : ℚ
  a : ℚ
deriving DecidableEq

/-- Modelled from the spec: the `Rgba::WHITE` constant, "fully opaque
white", i.e. all four channels 1. -/
def Rgba.WHITE : Rgba := ⟨1, 1, 1, 1⟩

/-- Modelled from the spec: the world transform component.  The crate-root
`GlobalTransform` newtype (accessed as `transform.0` in the encoder) is not
under `src/`; the spec says "a 4×4 transform per entity; its first two
columns are read as local X/Y basis vectors".  The single field `mat`
stands for the Rust field `.0`. -/
structure GlobalTransform where
  mat : Matrix (Fin 4) (Fin 4) ℚ

instance : DecidableEq GlobalTransform := fun s t =>
  decidable_of_iff (s.mat = t.mat) (by cases s; cases t; simp)

/-- An opaque asset handle (`Handle<SpriteSheet>`); only its identity
matters, so it is a natural number. -/
abbrev SpriteSheetHandle : Type := ℕ

/-- Modelled from the spec: the sprite record read by the derived-geometry
encoder.  The encoder (`encoders_impl.rs`) reads `sprite.width`,
`sprite.height` and `sprite.offsets[0..1]`; the `Sprite` declaration that
carries the `offsets` field is not under `src/` (the `Sprite` in
`src/sprite.rs` is a different revision without it), so the record is
reconstructed from those accesses and the spec's "sprite's negated pixel
offset".  `offsets` keeps the two pixel-offset components `[f32; 2]`. -/
structure EncSprite where
  width : ℚ
  height : ℚ
  offsets : ℚ × ℚ
deriving DecidableEq

/-- Modelled from the spec: the sprite-sheet metadata resolved through the
asset storage; the encoder only reads its ordered `sprites` list. -/
structure EncSpriteSheet where
  sprites : List EncSprite
deriving DecidableEq

/-- The `SpriteRender` component consumed by the derived-geometry encoder:
a sprite-sheet handle plus an index into the sheet's sprite list (the same
two fields as `SpriteRenderInfo` in `src/sprite.rs`). -/
structure SpriteRender where
  sprite_sheet : SpriteSheetHandle
  sprite_number : ℕ
deriving DecidableEq

/-- Modelled from the spec: the read-only asset storage view
(`Read<AssetStorage<SpriteSheet>>`).  `AssetStorage::get` resolves an
opaque handle to the immutable sheet metadata or fails, so the storage is
a partial map from handles to sheets. -/
abbrev SheetStorage : Type := SpriteSheetHandle → Option EncSpriteSheet

/-- Per-entity derivation of `RgbaTintEncoder::encode` (the closure passed
to `encode_loop.run`): substitute `Rgba::WHITE` when the component is
absent, then emit the four channels as one `vec4 tint` value. -/
def RgbaTintEncoder.encodePer (rgba? : Option Rgba) : Option Vec4 :=
  let rgba := rgba?.getD Rgba.WHITE
  some ![rgba.r, rgba.g, rgba.b, rgba.a]

/-- Per-entity derivation of `SpriteTransformEncoder::encode` (the closure
passed to `encode_loop.run`).  The outer `Option` models panics: `none`
is the panic of the unchecked `.unwrap()` on an unresolved handle or of
the unchecked `sprites[sprite_number]` index; `some r` is the value the
Rust closure returns.  When both components are present it resolves the
sheet, picks the sprite, and derives `pos`, `dir_x`, `dir_y`; otherwise
it yields "no value" for all three properties. -/
def SpriteTransformEncoder.encodePer (spritesheet_storage : SheetStorage)
    (input : Option GlobalTransform × Option SpriteRender) :
    Option (Option Vec4 × Option Vec4 × Option Vec4) :=
  match input with
  | (some transform, some sprite_render) =>
    match spritesheet_storage sprite_render.sprite_sheet with
    | none => none
    | some sprite_sheet =>
      match sprite_sheet.sprites[sprite_render.sprite_number]? with
      | none => none
      | some sprite =>
        let dir_x : Vec4 := fun i => transform.mat i 0 * sprite.width
        let dir_y : Vec4 := fun i => transform.mat i 1 * sprite.height
        let pos : Vec4 :=
          transform.mat.mulVec ![-sprite.offsets.1, -sprite.offsets.2, 0, 1]
        some (some pos, some dir_x, some dir_y)
  | _ => (some (none, none, none) :
      Option (Option Vec4 × Option Vec4 × Option Vec4))

/-- C1: for every visited entity, if either the `GlobalTransform` or the
`SpriteRender` input is absent, the derived-geometry encoder returns "no
value" for all three declared properties (position, dir_x, dir_y) — never
a partial result for that entity. -/
theorem spriteTransform_missing_input_all_none
    (storage : SheetStorage) (t? : Option GlobalTransform)
    (sr? : Option SpriteRender) (h : t? = none ∨ sr? = none) :
    SpriteTransformEncoder.encodePer storage (t?, sr?) =
      some (none, none, none) := by
  rcases t? with _ | t <;> rcases sr? with _ | sr <;>
    simp [SpriteTransformEncoder.encodePer] at h ⊢

/-- Witness for C1: a concrete entity missing its transform gets all three
outputs withheld. -/
theorem spriteTransform_missing_input_all_none_witness :
    SpriteTransformEncoder.encodePer (fun _ => none)
      (none, some ⟨0, 0⟩) = some (none, none, none) :=
  spriteTransform_missing_input_all_none (fun _ => none) none (some ⟨0, 0⟩)
    (Or.inl rfl)

/-- C3: the pass-through tint encoder returns exactly `[1,1,1,1]` when the
`Rgba` component is absent, returns the four channels unchanged when it is
present, and never returns "no value". -/
theorem rgbaTint_passthrough_default :
    (RgbaTintEncoder.encodePer none = some ![1, 1, 1, 1]) ∧
    (∀ c : Rgba,
      RgbaTintEncoder.encodePer (some c) = some ![c.r, c.g, c.b, c.a]) ∧
    (∀ rgba? : Option Rgba, (RgbaTintEncoder.encodePer rgba?).isSome) := by
  refine ⟨rfl, fun c => rfl, fun rgba? => ?_⟩
  cases rgba? <;> rfl

/-- Squared Euclidean magnitude of a 4-scalar value; over the rational
model, the statement "magnitude equals L·W" is rendered exactly as
"squared magnitude equals L²·W²" (both sides are nonnegative, so the
two are equivalent for real magnitudes). -/
def sqNorm (v : Vec4) : ℚ := ∑ i, v i * v i

/-- C2 (code behaviour at the failing input): with both components
present but the sprite-sheet handle unresolved in the asset storage, the
derived-geometry encoder reaches the unchecked `.unwrap()` and panics
(modelled by the outer `none`) instead of withholding the three outputs
and reporting a non-fatal completion status. -/
theorem spriteTransform_unresolved_sheet_panics :
    SpriteTransformEncoder.encodePer (fun _ => none)
      (some ⟨1⟩, some ⟨0, 0⟩) = none := rfl

/-- C9: with both components present, the derived-geometry closure
returns a value (its panic branches are unreachable) exactly when the
entity's sprite-sheet handle resolves in the asset storage and its
`sprite_number` is strictly below the length of the resolved sheet's
sprite list; outside this precondition the unchecked `.unwrap()` or the
unchecked indexing reaches the panic branch. -/
theorem spriteTransform_total_iff_resolvable (storage : SheetStorage)
    (t : GlobalTransform) (sr : SpriteRender) :
    (SpriteTransformEncoder.encodePer storage (some t, some sr)).isSome ↔
      ∃ sheet, storage sr.sprite_sheet = some sheet ∧
        sr.sprite_number < sheet.sprites.length := by
  unfold SpriteTransformEncoder.encodePer
  cases hs : storage sr.sprite_sheet with
  | none => simp [hs]
  | some sheet =>
    cases hg : sheet.sprites[sr.sprite_number]? with
    | none =>
      have hlen : sheet.sprites.length ≤ sr.sprite_number :=
        List.getElem?_eq_none_iff.mp hg
      simp only [hs, hg, Option.isSome_none, Bool.false_eq_true, false_iff]
      rintro ⟨sheet', hsheet', hlt⟩
      cases hsheet'
      omega
    | some sprite =>
      have hlt : sr.sprite_number < sheet.sprites.length :=
        (List.getElem?_eq_some.mp hg).1
      simp [hs, hg, hlt]

/-- C4: with both components present and the sprite metadata resolvable,
the encoder outputs dir_x = first basis column of the transform scaled by
the sprite's pixel width, dir_y = second basis column scaled by the pixel
height, and pos = the 4×4 transform applied to the homogeneous point
(-offset_x, -offset_y, 0, 1) built from the negated pixel offset;
consequently the squared magnitude of dir_x is the squared column length
times the squared width (i.e. |dir_x| = L·W), analogously for dir_y. -/
theorem spriteTransform_geometry (storage : SheetStorage)
    (t : GlobalTransform) (sr : SpriteRender) (sheet : EncSpriteSheet)
    (sprite : EncSprite) (hget : storage sr.sprite_sheet = some sheet)
    (hidx : sheet.sprites[sr.sprite_number]? = some sprite) :
    SpriteTransformEncoder.encodePer storage (some t, some sr) =
      some
        (some (t.mat.mulVec ![-sprite.offsets.1, -sprite.offsets.2, 0, 1]),
         some (fun i => t.mat i 0 * sprite.width),
         some (fun i => t.mat i 1 * sprite.height)) ∧
    sqNorm (fun i => t.mat i 0 * sprite.width) =
      sqNorm (fun i => t.mat i 0) * sprite.width ^ 2 ∧
    sqNorm (fun i => t.mat i 1 * sprite.height) =
      sqNorm (fun i => t.mat i 1) * sprite.height ^ 2 := by
  have hscale : ∀ (c : Vec4) (w : ℚ),
      sqNorm (fun i => c i * w) = sqNorm c * w ^ 2 := by
    intro c w
    unfold sqNorm
    rw [Finset.sum_mul]
    exact Finset.sum_congr rfl (fun i _ => by ring)
  refine ⟨?_, hscale _ _, hscale _ _⟩
  simp only [SpriteTransformEncoder.encodePer, hget, hidx]

/-- Witness for C4: a concrete one-sprite storage, a concrete sprite
render and the identity transform satisfy the hypotheses, and the
theorem applies. -/
theorem spriteTransform_geometry_witness :
    ((fun h => if h = 0 then some ⟨[⟨2, 3, (1, 1)⟩]⟩ else none :
        SheetStorage) (SpriteRender.mk 0 0).sprite_sheet =
      some ⟨[⟨2, 3, (1, 1)⟩]⟩) ∧
    ((⟨[⟨2, 3, (1, 1)⟩]⟩ : EncSpriteSheet).sprites[
        (SpriteRender.mk 0 0).sprite_number]? = some ⟨2, 3, (1, 1)⟩) ∧
    (SpriteTransformEncoder.encodePer
        (fun h => if h = 0 then some ⟨[⟨2, 3, (1, 1)⟩]⟩ else none)
        (some ⟨1⟩, some ⟨0, 0⟩) =
      some
        (some ((1 : Matrix (Fin 4) (Fin 4) ℚ).mulVec ![-(1 : ℚ), -1, 0, 1]),
         some (fun i => (1 : Matrix (Fin 4) (Fin 4) ℚ) i 0 * 2),
         some (fun i => (1 : Matrix (Fin 4) (Fin 4) ℚ) i 1 * 3)) ∧
      sqNorm (fun i => (1 : Matrix (Fin 4) (Fin 4) ℚ) i 0 * 2) =
        sqNorm (fun i => (1 : Matrix (Fin 4) (Fin 4) ℚ) i 0) * 2 ^ 2 ∧
      sqNorm (fun i => (1 : Matrix (Fin 4) (Fin 4) ℚ) i 1 * 3) =
        sqNorm (fun i => (1 : Matrix (Fin 4) (Fin 4) ℚ) i 1) * 3 ^ 2) :=
  ⟨rfl, rfl,
    spriteTransform_geometry
      (fun h => if h = 0 then some ⟨[⟨2, 3, (1, 1)⟩]⟩ else none) ⟨1⟩ ⟨0, 0⟩
      ⟨[⟨2, 3, (1, 1)⟩]⟩ ⟨2, 3, (1, 1)⟩ rfl rfl⟩

/-- Modelled from the spec: the encode loop (§4.2) visits the frame's
entity population in a deterministic, stable order and collects the
per-entity closure's results into an ordered output sequence; the
population is the ordered list of per-entity component views presented by
the join, and running the loop is mapping the closure over it. -/
def encodeLoopRun {α β : Type} (population : List α) (f : α → β) :
    List β :=
  population.map f

/-- Full run of `RgbaTintEncoder::encode` over a frame's population. -/
def RgbaTintEncoder.encode (population : List (Option Rgba)) :
    List (Option Vec4) :=
  encodeLoopRun population RgbaTintEncoder.encodePer

/-- Full run of `SpriteTransformEncoder::encode` over a frame's
population, given the resolved sprite-sheet storage view. -/
def SpriteTransformEncoder.encode (storage : SheetStorage)
    (population : List (Option GlobalTransform × Option SpriteRender)) :
    List (Option (Option Vec4 × Option Vec4 × Option Vec4)) :=
  encodeLoopRun population (SpriteTransformEncoder.encodePer storage)

/-- C5: both encoders are deterministic — run twice against the same
entity population (and, for the transform encoder, the same resolved
asset-storage state), they produce identical output sequences in
identical order. -/
theorem encoders_deterministic
    (pop₁ pop₂ : List (Option Rgba))
    (spop₁ spop₂ : List (Option GlobalTransform × Option SpriteRender))
    (storage₁ storage₂ : SheetStorage)
    (hpop : pop₁ = pop₂) (hspop : spop₁ = spop₂)
    (hstorage : storage₁ = storage₂) :
    RgbaTintEncoder.encode pop₁ = RgbaTintEncoder.encode pop₂ ∧
    SpriteTransformEncoder.encode storage₁ spop₁ =
      SpriteTransformEncoder.encode storage₂ spop₂ := by
  subst hpop; subst hspop; subst hstorage
  exact ⟨rfl, rfl⟩

/-- Witness for C5: two runs over one concrete two-entity population (and
one concrete storage) coincide. -/
theorem encoders_deterministic_witness :
    ([none, some ⟨1, 0, 0, 1⟩] = ([none, some ⟨1, 0, 0, 1⟩] :
        List (Option Rgba))) ∧
    RgbaTintEncoder.encode [none, some ⟨1, 0, 0, 1⟩] =
      RgbaTintEncoder.encode [none, some ⟨1, 0, 0, 1⟩] ∧
    SpriteTransformEncoder.encode (fun _ => none) [(none, none)] =
      SpriteTransformEncoder.encode (fun _ => none) [(none, none)] :=
  ⟨rfl,
    (encoders_deterministic [none, some ⟨1, 0, 0, 1⟩]
      [none, some ⟨1, 0, 0, 1⟩] [(none, none)] [(none, none)]
      (fun _ => none) (fun _ => none) rfl rfl rfl).1,
    (encoders_deterministic [none, some ⟨1, 0, 0, 1⟩]
      [none, some ⟨1, 0, 0, 1⟩] [(none, none)] [(none, none)]
      (fun _ => none) (fun _ => none) rfl rfl rfl).2⟩

/-- Names of the declared output properties
(`properties_impl`: tint, pos, dir_x, dir_y). -/
inductive PropertyName where
  | tint
  | pos2d
  | dirX
  | dirY
deriving DecidableEq

/-- The declared `Properties` tuple of `RgbaTintEncoder`:
`(TintProperty,)`. -/
def RgbaTintEncoder.propertyList : List PropertyName := [.tint]

/-- The declared `Properties` tuple of `SpriteTransformEncoder`:
`(Pos2DProperty, DirXProperty, DirYProperty)`. -/
def SpriteTransformEncoder.propertyList : List PropertyName :=
  [.pos2d, .dirX, .dirY]

/-- The per-entity result tuple of the tint encoder flattened to the list
of per-property results (the Rust value `(Some [..],)`). -/
def tintResultList (r : Option Vec4) : List (Option Vec4) := [r]

/-- The per-entity result tuple of the transform encoder flattened to the
list of per-property results (the Rust value `(pos, dir_x, dir_y)`). -/
def spriteResultList (r : Option Vec4 × Option Vec4 × Option Vec4) :
    List (Option Vec4) :=
  [r.1, r.2.1, r.2.2]

/-- C6: for every visited entity, each encoder returns exactly one
present-or-absent result per declared property — the result arity equals
the declared Properties arity (1 for `RgbaTintEncoder`, 3 for
`SpriteTransformEncoder`), never more and never fewer. -/
theorem encoders_result_arity :
    (∀ rgba? : Option Rgba,
      (tintResultList (RgbaTintEncoder.encodePer rgba?)).length =
        RgbaTintEncoder.propertyList.length) ∧
    (∀ (storage : SheetStorage)
      (input : Option GlobalTransform × Option SpriteRender)
      (r : Option Vec4 × Option Vec4 × Option Vec4),
      SpriteTransformEncoder.encodePer storage input = some r →
      (spriteResultList r).length =
        SpriteTransformEncoder.propertyList.length) :=
  ⟨fun _ => rfl, fun _ _ _ _ => rfl⟩

/-- Witness for C6: a concrete entity with neither component present
yields the all-withheld transform result, whose arity is the declared 3;
the tint arity is 1. -/
theorem encoders_result_arity_witness :
    (SpriteTransformEncoder.encodePer (fun _ => none) (none, none) =
      some (none, none, none)) ∧
    (tintResultList (RgbaTintEncoder.encodePer none)).length =
      RgbaTintEncoder.propertyList.length ∧
    (spriteResultList (none, none, none)).length =
      SpriteTransformEncoder.propertyList.length :=
  ⟨rfl, encoders_result_arity.1 none,
    encoders_result_arity.2 (fun _ => none) (none, none)
      (none, none, none) rfl⟩

/-- Dimensions and texture coordinates of each sprite in a sprite sheet
(`Sprite` in `src/sprite.rs`): pixel width and height, then the
normalized left/right x and top/bottom y texture coordinates. -/
structure Sprite where
  width : ℚ
  height : ℚ
  left : ℚ
  right : ℚ
  top : ℚ
  bottom : ℚ
deriving DecidableEq

/-- The `From<((f32, f32), (f32, f32), (f32, f32))>` conversion for
`Sprite` (nested-pair form). -/
def Sprite.fromNested : (ℚ × ℚ) × (ℚ × ℚ) × (ℚ × ℚ) → Sprite
  | ((width, height), (left, right), (top, bottom)) =>
    { width := width, height := height, left := left, right := right,
      top := top, bottom := bottom }

/-- The `From<[f32; 6]>` conversion for `Sprite` (flat 6-element
sequence, indexed `uv[0]`..`uv[5]`); the fixed-size array is a function
out of `Fin 6`. -/
def Sprite.fromFlat (uv : Fin 6 → ℚ) : Sprite :=
  { width := uv 0, height := uv 1, left := uv 2, right := uv 3,
    top := uv 4, bottom := uv 5 }

/-- C7: for all scalars, a sprite built from the flat sequence
`[w, h, l, r, t, b]` is field-wise equal to one built from the nested
form `((w, h), (l, r), (t, b))`; in particular both
`[10, 20, 0, 0.5, 0.75, 1.0]` and `((10,20),(0,0.5),(0.75,1.0))` yield
`{width 10, height 20, left 0, right 0.5, top 0.75, bottom 1.0}`. -/
theorem sprite_from_flat_eq_from_nested :
    (∀ w h l r t b : ℚ,
      Sprite.fromFlat ![w, h, l, r, t, b] =
        Sprite.fromNested ((w, h), (l, r), (t, b))) ∧
    Sprite.fromFlat ![10, 20, 0, 0.5, 0.75, 1.0] =
      { width := 10, height := 20, left := 0, right := 0.5,
        top := 0.75, bottom := 1.0 } ∧
    Sprite.fromNested ((10, 20), (0, 0.5), (0.75, 1.0)) =
      { width := 10, height := 20, left := 0, right := 0.5,
        top := 0.75, bottom := 1.0 } :=
  ⟨fun _ _ _ _ _ _ => rfl, rfl, rfl⟩

/-- An opaque stable entity identifier. -/
abbrev Entity : Type := ℕ

/-- An opaque texture handle (`TextureHandle`). -/
abbrev TextureHandle : Type := ℕ

/-- Modelled from the spec: the mesh handle produced by
`loader.load_from_data` for the plane mesh generated from
`(half_width, half_height, 0.0)`.  Mesh construction is an excluded
collaborator (§1), so the handle is represented by the generation
parameters that determine the mesh. -/
structure MeshHandle where
  plane : ℚ × ℚ × ℚ
deriving DecidableEq

/-- Texture offset of a material: the `u` and `v` coordinate ranges
written by `build_mesh_and_material`. -/
structure TextureOffset where
  u : ℚ × ℚ
  v : ℚ × ℚ
deriving DecidableEq

/-- Modelled from the spec: the crate-root `Material` record is not under
`src/`; we keep the two fields `build_mesh_and_material` sets (`albedo`,
`albedo_offset`) plus one abstract field `rest` standing for every
remaining field copied from the defaults by
`..self.material_defaults.0.clone()`. -/
structure Material where
  albedo : TextureHandle
  albedo_offset : TextureOffset
  rest : ℕ
deriving DecidableEq

/-- Modelled from the spec: the mutable state reachable through
`SpriteRenderData` — the two writable component storages plus the live
entity set of the world and the shared material defaults.  A specs
`WriteStorage::insert` fails exactly when the target entity no longer
exists (§7 AttachmentFailure: "the entity no longer exists"). -/
structure SpriteRenderDataState where
  alive : Entity → Bool
  meshes : Entity → Option MeshHandle
  materials : Entity → Option Material
  material_defaults : Material

/-- `WriteStorage::insert` on the mesh storage: write the component for a
live entity, fail (`none`) for a dead one. -/
def insertMesh (st : SpriteRenderDataState) (e : Entity)
    (m : MeshHandle) : Option SpriteRenderDataState :=
  if st.alive e then
    some { st with meshes := fun x => if x = e then some m else st.meshes x }
  else
    none

/-- `WriteStorage::insert` on the material storage. -/
def insertMaterial (st : SpriteRenderDataState) (e : Entity)
    (m : Material) : Option SpriteRenderDataState :=
  if st.alive e then
    some { st with
      materials := fun x => if x = e then some m else st.materials x }
  else
    none

/-- `SpriteRenderData::build_mesh_and_material`: the plane mesh is loaded
from half the UV extents, and the material is the defaults with `albedo`
and `albedo_offset` replaced.  Rust `size.0`/`size.1` are `size.1`/
`size.2` here. -/
def build_mesh_and_material (material_defaults : Material)
    (sprite : Sprite) (texture : TextureHandle) (size : ℚ × ℚ) :
    MeshHandle × Material :=
  let half_width := (sprite.right - sprite.left) * 0.5
  let half_height := (sprite.bottom - sprite.top) * 0.5
  let mesh : MeshHandle := ⟨(half_width, half_height, 0)⟩
  let material : Material :=
    { albedo := texture
      albedo_offset :=
        { u := (sprite.left / size.1, sprite.right / size.1)
          v := (1 - sprite.bottom / size.2, 1 - sprite.top / size.2) }
      rest := material_defaults.rest }
  (mesh, material)

/-- One iteration of the `add_multiple` loop body: insert the mesh, then
the material; the Rust `?` returns the error immediately, leaving the
storages as already mutated, so a failed step returns the current state
with the failure flag. -/
def insertMeshAndMaterial (st : SpriteRenderDataState) (e : Entity)
    (mesh : MeshHandle) (material : Material) :
    SpriteRenderDataState × Bool :=
  match insertMesh st e mesh with
  | none => (st, false)
  | some st₁ =>
    match insertMaterial st₁ e material with
    | none => (st₁, false)
    | some st₂ => (st₂, true)

/-- The entity loop of `add_multiple`, in list order; the Rust source
splits off the last entity only to move instead of clone the handles,
which is value-identical.  The boolean is `Ok`/`Err` of the returned
`Result`. -/
def add_multiple_go (st : SpriteRenderDataState) (entities : List Entity)
    (mesh : MeshHandle) (material : Material) :
    SpriteRenderDataState × Bool :=
  match entities with
  | [] => (st, true)
  | e :: rest =>
    match insertMeshAndMaterial st e mesh material with
    | (st', true) => add_multiple_go st' rest mesh material
    | (st', false) => (st', false)

/-- `SpriteRenderData::add_multiple`: do nothing for an empty entity
list, otherwise build the mesh and material once and attach them to
every entity in order. -/
def add_multiple (st : SpriteRenderDataState) (entities : List Entity)
    (sprite : Sprite) (texture : TextureHandle)
    (texture_size : ℚ × ℚ) : SpriteRenderDataState × Bool :=
  if entities.length = 0 then (st, true)
  else
    let mm :=
      build_mesh_and_material st.material_defaults sprite texture
        texture_size
    add_multiple_go st entities mm.1 mm.2

theorem insertMeshAndMaterial_alive (st : SpriteRenderDataState)
    (e : Entity) (mesh : MeshHandle) (material : Material) :
    (insertMeshAndMaterial st e mesh material).1.alive = st.alive := by
  unfold insertMeshAndMaterial insertMesh insertMaterial
  by_cases h : st.alive e <;> simp [h]

theorem add_multiple_go_preserves (entities : List Entity)
    (st : SpriteRenderDataState) (mesh : MeshHandle)
    (material : Material) (x : Entity)
    (hm : st.meshes x = some mesh) (hmat : st.materials x = some material) :
    (add_multiple_go st entities mesh material).1.meshes x = some mesh ∧
    (add_multiple_go st entities mesh material).1.materials x =
      some material := by
  induction entities generalizing st with
  | nil => exact ⟨hm, hmat⟩
  | cons e rest ih =>
    unfold add_multiple_go insertMeshAndMaterial insertMesh insertMaterial
    by_cases h : st.alive e
    · simp only [h, if_true]
      refine ih _ ?_ ?_ <;> by_cases hx : x = e <;> simp [hx, hm, hmat]
    · simp [h, hm, hmat]

theorem add_multiple_go_ok (entities : List Entity)
    (st : SpriteRenderDataState) (mesh : MeshHandle) (material : Material)
    (halive : ∀ e ∈ entities, st.alive e = true) :
    (add_multiple_go st entities mesh material).2 = true ∧
    ∀ e ∈ entities,
      (add_multiple_go st entities mesh material).1.meshes e = some mesh ∧
      (add_multiple_go st entities mesh material).1.materials e =
        some material := by
  induction entities generalizing st with
  | nil => exact ⟨rfl, by simp⟩
  | cons e rest ih =>
    have he : st.alive e = true := halive e (List.mem_cons_self e rest)
    unfold add_multiple_go insertMeshAndMaterial insertMesh insertMaterial
    simp only [he, if_true]
    set st₂ : SpriteRenderDataState :=
      { st with
        meshes := fun x => if x = e then some mesh else st.meshes x,
        materials :=
          fun x => if x = e then some material else st.materials x } with hst₂
    have halive₂ : ∀ e' ∈ rest, st₂.alive e' = true := fun e' h' =>
      halive e' (List.mem_cons_of_mem e h')
    have hrec := ih st₂ halive₂
    refine ⟨hrec.1, ?_⟩
    intro e' he'
    rcases List.mem_cons.mp he' with h | h
    · subst h
      exact add_multiple_go_preserves rest st₂ mesh material e'
        (by simp [hst₂]) (by simp [hst₂])
    · exact hrec.2 e' h

/-- C8: `add_multiple` on an empty entity list performs no storage write
and reports success; on a nonempty list whose entities are all still
alive (so that every storage insert succeeds), it reports success and
leaves every listed entity holding the mesh handle and the cloned
material built once from the given sprite and texture. -/
theorem add_multiple_batch_attach (st : SpriteRenderDataState)
    (entities : List Entity) (sprite : Sprite) (texture : TextureHandle)
    (texture_size : ℚ × ℚ)
    (halive : ∀ e ∈ entities, st.alive e = true) :
    add_multiple st [] sprite texture texture_size = (st, true) ∧
    (add_multiple st entities sprite texture texture_size).2 = true ∧
    ∀ e ∈ entities,
      (add_multiple st entities sprite texture texture_size).1.meshes e =
        some (build_mesh_and_material st.material_defaults sprite texture
          texture_size).1 ∧
      (add_multiple st entities sprite texture
          texture_size).1.materials e =
        some (build_mesh_and_material st.material_defaults sprite texture
          texture_size).2 := by
  refine ⟨rfl, ?_⟩
  cases entities with
  | nil => exact ⟨rfl, by simp⟩
  | cons e rest =>
    unfold add_multiple
    simp only [List.length_cons, Nat.succ_ne_zero, if_false]
    exact add_multiple_go_ok (e :: rest) st _ _ halive

/-- A concrete storage state used to instantiate the attachment theorems:
entities 0 and 1 are alive, every other entity is dead, and no components
are attached yet. -/
def demoState : SpriteRenderDataState where
  alive := fun e => decide (e < 2)
  meshes := fun _ => none
  materials := fun _ => none
  material_defaults := ⟨0, ⟨(0, 0), (0, 0)⟩, 0⟩

/-- A concrete sprite used to instantiate the attachment theorems. -/
def demoSprite : Sprite := ⟨10, 20, 0, 0.5, 0.75, 1⟩

/-- Witness for C8: both listed entities are alive in the concrete state,
and the batch attachment succeeds, leaving both holding the
once-built mesh and material. -/
theorem add_multiple_batch_attach_witness :
    (∀ e ∈ [0, 1], demoState.alive e = true) ∧
    (add_multiple demoState [] demoSprite 7 (1, 1) = (demoState, true) ∧
     (add_multiple demoState [0, 1] demoSprite 7 (1, 1)).2 = true ∧
     ∀ e ∈ [0, 1],
       (add_multiple demoState [0, 1] demoSprite 7 (1, 1)).1.meshes e =
         some (build_mesh_and_material demoState.material_defaults
           demoSprite 7 (1, 1)).1 ∧
       (add_multiple demoState [0, 1] demoSprite 7 (1, 1)).1.materials e =
         some (build_mesh_and_material demoState.material_defaults
           demoSprite 7 (1, 1)).2) :=
  ⟨by decide,
    add_multiple_batch_attach demoState [0, 1] demoSprite 7 (1, 1)
      (by decide)⟩

theorem add_multiple_go_partial (good : List Entity)
    (st : SpriteRenderDataState) (bad : Entity) (rest : List Entity)
    (mesh : MeshHandle) (material : Material)
    (hgood : ∀ e ∈ good, st.alive e = true)
    (hbad : st.alive bad = false) :
    (add_multiple_go st (good ++ bad :: rest) mesh material).2 = false ∧
    ∀ e ∈ good,
      (add_multiple_go st (good ++ bad :: rest) mesh
        material).1.meshes e = some mesh ∧
      (add_multiple_go st (good ++ bad :: rest) mesh
        material).1.materials e = some material := by
  induction good generalizing st with
  | nil =>
    unfold add_multiple_go insertMeshAndMaterial insertMesh
    simp [hbad]
  | cons e good' ih =>
    have he : st.alive e = true := hgood e (List.mem_cons_self e good')
    rw [List.cons_append]
    unfold add_multiple_go insertMeshAndMaterial insertMesh insertMaterial
    simp only [he, if_true]
    set st₂ : SpriteRenderDataState :=
      { st with
        meshes := fun x => if x = e then some mesh else st.meshes x,
        materials :=
          fun x => if x = e then some material else st.materials x }
      with hst₂
    have hgood₂ : ∀ e' ∈ good', st₂.alive e' = true := fun e' h' =>
      hgood e' (List.mem_cons_of_mem e h')
    have hrec := ih st₂ hgood₂ hbad
    refine ⟨hrec.1, ?_⟩
    intro e' he'
    rcases List.mem_cons.mp he' with h | h
    · subst h
      exact add_multiple_go_preserves (good' ++ bad :: rest) st₂ mesh
        material e' (by simp [hst₂]) (by simp [hst₂])
    · exact hrec.2 e' h

/-- C10: `add_multiple` is not atomic.  It inserts mesh and material
entity by entity in list order and returns at the first failing insert:
if every entity before position k is alive and the entity at position k
is dead, the call reports failure, yet the mesh and material writes
already performed for the entities before k remain in the storages —
the state is not rolled back on error. -/
theorem add_multiple_not_atomic (st : SpriteRenderDataState)
    (good : List Entity) (bad : Entity) (rest : List Entity)
    (sprite : Sprite) (texture : TextureHandle) (texture_size : ℚ × ℚ)
    (hgood : ∀ e ∈ good, st.alive e = true)
    (hbad : st.alive bad = false) :
    (add_multiple st (good ++ bad :: rest) sprite texture
      texture_size).2 = false ∧
    ∀ e ∈ good,
      (add_multiple st (good ++ bad :: rest) sprite texture
        texture_size).1.meshes e =
        some (build_mesh_and_material st.material_defaults sprite texture
          texture_size).1 ∧
      (add_multiple st (good ++ bad :: rest) sprite texture
        texture_size).1.materials e =
        some (build_mesh_and_material st.material_defaults sprite texture
          texture_size).2 := by
  unfold add_multiple
  have hne : (good ++ bad :: rest).length ≠ 0 := by simp
  simp only [hne, if_false]
  exact add_multiple_go_partial good st bad rest _ _ hgood hbad

/-- Witness for C10: with entity 0 alive and entity 5 dead, attaching to
`[0, 5]` fails, but entity 0's mesh and material writes remain. -/
theorem add_multiple_not_atomic_witness :
    (∀ e ∈ [0], demoState.alive e = true) ∧
    demoState.alive 5 = false ∧
    ((add_multiple demoState ([0] ++ 5 :: []) demoSprite 7 (1, 1)).2 =
      false ∧
     ∀ e ∈ [0],
       (add_multiple demoState ([0] ++ 5 :: []) demoSprite 7
         (1, 1)).1.meshes e =
         some (build_mesh_and_material demoState.material_defaults
           demoSprite 7 (1, 1)).1 ∧
       (add_multiple demoState ([0] ++ 5 :: []) demoSprite 7
         (1, 1)).1.materials e =
         some (build_mesh_and_material demoState.material_defaults
           demoSprite 7 (1, 1)).2) :=
  ⟨by decide, by decide,
    add_multiple_not_atomic demoState [0] 5 [] demoSprite 7 (1, 1)
      (by decide) (by decide)⟩
